import Mathlib

/-!
Verification of the data-cleaning pipeline `load_and_clean_data` of
`src/app.py` (a marketing-campaign analytics dashboard).

The pipeline is a single-pass batch transformation over a table of
customer rows: a null-income filter, four derived columns
(`Age`, `Total_Spend`, `Total_Accepted_Campaigns`, `Tenure_Days`),
an enrollment-date parse, two categorical normalizations and an
outlier filter.  We embed the table as a `List` of row structures and
each pandas statement as a map or filter over that list, then prove
the spec's invariants about the composite.
-/

/-- Proleptic-Gregorian leap-year test, as used by pandas datetimes. -/
def isLeap (y : Nat) : Bool :=
  (y % 4 == 0 && y % 100 != 0) || (y % 400 == 0)

/-- Number of days in month `m` (1..12) of year `y`. -/
def daysInMonth (y m : Nat) : Nat :=
  if m = 2 then (if isLeap y then 29 else 28)
  else if m = 4 ∨ m = 6 ∨ m = 9 ∨ m = 11 then 30
  else 31

/-- A calendar date, the value held by a successfully parsed
`Dt_Customer` cell (pandas `Timestamp`, date part only — the pipeline
only ever takes day differences). -/
structure DateVal where
  year : Nat
  month : Nat
  day : Nat
deriving DecidableEq, Repr

/-- Days contributed by the full months before month `m` in year `y`. -/
def daysBeforeMonth (y m : Nat) : Nat :=
  (List.range (m - 1)).foldl (fun acc i => acc + daysInMonth y (i + 1)) 0

/-- Rank of a date on a linear day scale (days since 0000-01-01 in the
proleptic Gregorian calendar); only differences of this rank are used. -/
def toDays (dt : DateVal) : Nat :=
  365 * dt.year + (dt.year + 3) / 4 - (dt.year + 99) / 100 + (dt.year + 399) / 400
    + daysBeforeMonth dt.year dt.month + (dt.day - 1)

/-- Split a character list into the groups separated by dashes
(the field separator of the strict `%Y-%m-%d` format). -/
def splitDash : List Char → List (List Char)
  | [] => [[]]
  | c :: cs =>
    if c = '-' then [] :: splitDash cs
    else
      match splitDash cs with
      | g :: gs => (c :: g) :: gs
      | [] => [[c]]

/-- True for a nonempty all-digit character group. -/
def isDigitGroup (cs : List Char) : Bool :=
  !cs.isEmpty && cs.all (fun c => c.isDigit)

/-- Numeric value of an all-digit character group. -/
def natOfDigits (cs : List Char) : Nat :=
  cs.foldl (fun acc c => acc * 10 + (c.toNat - 48)) 0

/-- Embedding of `pd.to_datetime(cell, format=strict_ymd, errors=coerce)`
for one cell (app.py line 70): the string must be three dash-separated
digit groups forming a valid year-month-day; anything else coerces to
null (`none`, pandas `NaT`). -/
def parseStrict (s : String) : Option DateVal :=
  match splitDash s.toList with
  | [ys, ms, ds] =>
    if isDigitGroup ys && isDigitGroup ms && isDigitGroup ds then
      let y := natOfDigits ys
      let m := natOfDigits ms
      let d := natOfDigits ds
      if 1 ≤ m ∧ m ≤ 12 ∧ 1 ≤ d ∧ d ≤ daysInMonth y m then some ⟨y, m, d⟩ else none
    else none
  | _ => none

/-- Embedding of `pd.to_datetime(col, dayfirst=True, errors=coerce)` as
the code applies it on line 73: by line 73 the `Dt_Customer` column has
already been overwritten (line 70) with datetime/`NaT` values, and
re-parsing a datetime yields itself while `NaT` stays `NaT`, so the
call is the identity on the already-coerced column. -/
def fallbackOnParsed (d : Option DateVal) : Option DateVal := d

/-- The reference date `pd.to_datetime("2014-12-31")` of app.py line 75
(with `current_year = 2014`). -/
def refDate : DateVal := ⟨2014, 12, 31⟩

/-- Day difference `(reference date - d).days` of app.py line 75. -/
def tenureDays (d : DateVal) : Int :=
  (toDays refDate : Int) - (toDays d : Int)

/-- A raw input row: the columns of the CSV that the pipeline reads.
`Income` is nullable (the dataset has missing incomes); all other
numeric columns are plain integers; `Country` may be absent from the
schema, hence optional. -/
structure RawRow where
  Year_Birth : Int
  Income : Option Int
  Dt_Customer : String
  Marital_Status : String
  Education : String
  MntWines : Int
  MntFruits : Int
  MntMeatProducts : Int
  MntFishProducts : Int
  MntSweetProducts : Int
  MntGoldProds : Int
  AcceptedCmp1 : Int
  AcceptedCmp2 : Int
  AcceptedCmp3 : Int
  AcceptedCmp4 : Int
  AcceptedCmp5 : Int
  Response : Int
  Country : Option String
deriving DecidableEq, Repr

/-- A working/output row of the pipeline: all raw columns, plus the
four derived columns and the parsed `Dt_Customer`.  In the source the
`Dt_Customer` column is overwritten in place by the parse (line 70); we
keep the original string as `Dt_Customer_raw` and the overwriting
datetime/`NaT` value as `Dt_Customer`.  Derived columns are `Option`s,
`none` until their step assigns them. -/
structure Row where
  Year_Birth : Int
  Income : Option Int
  Dt_Customer_raw : String
  Dt_Customer : Option DateVal
  Marital_Status : String
  Education : String
  MntWines : Int
  MntFruits : Int
  MntMeatProducts : Int
  MntFishProducts : Int
  MntSweetProducts : Int
  MntGoldProds : Int
  AcceptedCmp1 : Int
  AcceptedCmp2 : Int
  AcceptedCmp3 : Int
  AcceptedCmp4 : Int
  AcceptedCmp5 : Int
  Response : Int
  Country : Option String
  Age : Option Int
  Total_Spend : Option Int
  Total_Accepted_Campaigns : Option Int
  Tenure_Days : Option Int
deriving DecidableEq, Repr

/-- Lift a raw CSV row into a working row; no derived column exists yet
and `Dt_Customer` has not been parsed. -/
def fromRaw (r : RawRow) : Row :=
  { Year_Birth := r.Year_Birth
    Income := r.Income
    Dt_Customer_raw := r.Dt_Customer
    Dt_Customer := none
    Marital_Status := r.Marital_Status
    Education := r.Education
    MntWines := r.MntWines
    MntFruits := r.MntFruits
    MntMeatProducts := r.MntMeatProducts
    MntFishProducts := r.MntFishProducts
    MntSweetProducts := r.MntSweetProducts
    MntGoldProds := r.MntGoldProds
    AcceptedCmp1 := r.AcceptedCmp1
    AcceptedCmp2 := r.AcceptedCmp2
    AcceptedCmp3 := r.AcceptedCmp3
    AcceptedCmp4 := r.AcceptedCmp4
    AcceptedCmp5 := r.AcceptedCmp5
    Response := r.Response
    Country := r.Country
    Age := none
    Total_Spend := none
    Total_Accepted_Campaigns := none
    Tenure_Days := none }

/-- Step 1, app.py line 54: `df = df.dropna(subset=[Income])`. -/
def dropNullIncome (t : List Row) : List Row :=
  t.filter (fun r => r.Income.isSome)

/-- Step 2, app.py lines 58-59: `df[Age] = 2014 - df[Year_Birth]`. -/
def addAge (t : List Row) : List Row :=
  t.map (fun r => { r with Age := some (2014 - r.Year_Birth) })

/-- Step 3, app.py lines 62-63: `df[Total_Spend]` is the row-wise sum of
the six `Mnt*` product columns. -/
def addTotalSpend (t : List Row) : List Row :=
  t.map (fun r =>
    { r with Total_Spend := some (r.MntWines + r.MntFruits + r.MntMeatProducts
        + r.MntFishProducts + r.MntSweetProducts + r.MntGoldProds) })

/-- Step 4, app.py lines 66-67: `df[Total_Accepted_Campaigns]` is the
row-wise sum of the five `AcceptedCmp*` flags and `Response`. -/
def addTotalCampaigns (t : List Row) : List Row :=
  t.map (fun r =>
    { r with Total_Accepted_Campaigns := some (r.AcceptedCmp1 + r.AcceptedCmp2
        + r.AcceptedCmp3 + r.AcceptedCmp4 + r.AcceptedCmp5 + r.Response) })

/-- Step 5, app.py lines 70-75: overwrite `Dt_Customer` with the strict
coercing parse; if the resulting column is entirely null, re-run the
day-first parse over that (already overwritten) column; then
`Tenure_Days = (2014-12-31 - Dt_Customer).days`, null where the date is
null. -/
def parseDatesAndTenure (t : List Row) : List Row :=
  let t1 := t.map (fun r => { r with Dt_Customer := parseStrict r.Dt_Customer_raw })
  let t2 := if t1.all (fun r => r.Dt_Customer.isNone)
            then t1.map (fun r => { r with Dt_Customer := fallbackOnParsed r.Dt_Customer })
            else t1
  t2.map (fun r => { r with Tenure_Days := r.Dt_Customer.map tenureDays })

/-- The `replace` dictionary for `Marital_Status`, app.py lines 79-83:
exact-match substitution, any other value left unchanged. -/
def maritalMap (s : String) : String :=
  if s = "Married" then "Partner"
  else if s = "Together" then "Partner"
  else if s = "Single" then "Single"
  else if s = "Divorced" then "Single"
  else if s = "Widow" then "Single"
  else if s = "Alone" then "Single"
  else if s = "Absurd" then "Other"
  else if s = "YOLO" then "Other"
  else s

/-- The `replace` dictionary for `Education`, app.py lines 86-89:
exact-match substitution, any other value left unchanged. -/
def eduMap (s : String) : String :=
  if s = "Basic" then "Undergraduate"
  else if s = "2n Cycle" then "Master"
  else if s = "Graduation" then "Graduate"
  else if s = "Master" then "Master"
  else if s = "PhD" then "PhD"
  else s

/-- Step 6, app.py lines 79-83. -/
def normalizeMarital (t : List Row) : List Row :=
  t.map (fun r => { r with Marital_Status := maritalMap r.Marital_Status })

/-- Step 7, app.py lines 86-89. -/
def normalizeEducation (t : List Row) : List Row :=
  t.map (fun r => { r with Education := eduMap r.Education })

/-- Boolean mask `df[Age] < 100` on a derived (hence optional) column;
a null compares false, as in pandas. -/
def ageLt100 (a : Option Int) : Bool :=
  match a with
  | some v => v < 100
  | none => false

/-- Boolean mask `df[Income] < 600000`; a null compares false. -/
def incomeLt600000 (i : Option Int) : Bool :=
  match i with
  | some v => v < 600000
  | none => false

/-- Step 8, app.py lines 92-93: keep rows with `Age < 100`, then rows
with `Income < 600000`. -/
def removeOutliers (t : List Row) : List Row :=
  (t.filter (fun r => ageLt100 r.Age)).filter (fun r => incomeLt600000 r.Income)

/-- The cleaning pipeline of `load_and_clean_data` (app.py lines 49-95)
applied to an already-loaded table: steps 1-8 in source order. -/
def clean (t : List RawRow) : List Row :=
  removeOutliers (normalizeEducation (normalizeMarital (parseDatesAndTenure
    (addTotalCampaigns (addTotalSpend (addAge (dropNullIncome (t.map fromRaw))))))))

/-- The typed error of the load stage: `pd.read_csv` raising
`FileNotFoundError` (app.py lines 43-47). -/
inductive DataError where
  | notFound
deriving DecidableEq, Repr

/-- Full `load_and_clean_data` (app.py lines 41-95): an absent resource
(`none`) is caught and reported, yielding no table at all; otherwise
the cleaned table. -/
def load_and_clean_data (src : Option (List RawRow)) : Except DataError (List Row) :=
  match src with
  | none => .error .notFound
  | some t => .ok (clean t)

/-- What the module top level renders (app.py lines 99-235): the
dashboard built from the cleaned table when the load succeeded, or only
the error/info message — no charts, no KPIs — when it did not. -/
inductive AppView where
  | dashboard (t : List Row)
  | errorMessage
deriving DecidableEq, Repr

/-- Module top level, app.py lines 99-101 and 234-235: `df` is `None`
exactly when loading failed, and every chart lives under
`if df is not None`. -/
def renderApp (src : Option (List RawRow)) : AppView :=
  match load_and_clean_data src with
  | .error _ => .errorMessage
  | .ok t => .dashboard t

/-- The keep-predicate the whole pipeline applies to a raw row:
non-null income (step 1), derived age below 100 and income below
600000 (step 8). -/
def keepRaw (r : RawRow) : Bool :=
  r.Income.isSome && ageLt100 (some (2014 - r.Year_Birth)) && incomeLt600000 r.Income

/-- The row transformation the whole pipeline applies to a surviving
raw row: all four derived columns, the parsed date and the two
normalized categoricals. -/
def enrichRaw (r : RawRow) : Row :=
  { Year_Birth := r.Year_Birth
    Income := r.Income
    Dt_Customer_raw := r.Dt_Customer
    Dt_Customer := parseStrict r.Dt_Customer
    Marital_Status := maritalMap r.Marital_Status
    Education := eduMap r.Education
    MntWines := r.MntWines
    MntFruits := r.MntFruits
    MntMeatProducts := r.MntMeatProducts
    MntFishProducts := r.MntFishProducts
    MntSweetProducts := r.MntSweetProducts
    MntGoldProds := r.MntGoldProds
    AcceptedCmp1 := r.AcceptedCmp1
    AcceptedCmp2 := r.AcceptedCmp2
    AcceptedCmp3 := r.AcceptedCmp3
    AcceptedCmp4 := r.AcceptedCmp4
    AcceptedCmp5 := r.AcceptedCmp5
    Response := r.Response
    Country := r.Country
    Age := some (2014 - r.Year_Birth)
    Total_Spend := some (r.MntWines + r.MntFruits + r.MntMeatProducts
      + r.MntFishProducts + r.MntSweetProducts + r.MntGoldProds)
    Total_Accepted_Campaigns := some (r.AcceptedCmp1 + r.AcceptedCmp2
      + r.AcceptedCmp3 + r.AcceptedCmp4 + r.AcceptedCmp5 + r.Response)
    Tenure_Days := (parseStrict r.Dt_Customer).map tenureDays }

/-- The day-first fallback of lines 72-73 acts on the already-coerced
column, so step 5 is a plain per-row map. -/
theorem parseDatesAndTenure_eq (t : List Row) :
    parseDatesAndTenure t = t.map (fun r =>
      { r with Dt_Customer := parseStrict r.Dt_Customer_raw
               Tenure_Days := (parseStrict r.Dt_Customer_raw).map tenureDays }) := by
  unfold parseDatesAndTenure
  have h : (fun r : Row => { r with Dt_Customer := fallbackOnParsed r.Dt_Customer }) = id := by
    funext r
    rfl
  simp only [List.map_map, h, Function.id_comp, Function.comp_id, ite_self]
  rfl

/-- The whole pipeline is a filter (by `keepRaw`) followed by a per-row
enrichment (`enrichRaw`). -/
theorem clean_eq (t : List RawRow) :
    clean t = (t.filter keepRaw).map enrichRaw := by
  unfold clean removeOutliers normalizeEducation normalizeMarital
    addTotalCampaigns addTotalSpend addAge dropNullIncome
  rw [parseDatesAndTenure_eq]
  simp only [List.map_map, List.filter_map, List.filter_filter]
  congr 1
  apply List.filter_congr
  intro r _
  cases hA : ageLt100 (some (2014 - r.Year_Birth)) <;>
    cases hI : r.Income.isSome <;>
    cases hE : incomeLt600000 r.Income <;>
    simp [keepRaw, fromRaw, hA, hI, hE]

/-- The golden row of the spec's example: born 1970, income 50000,
enrolled 2013-06-15, married, basic education, 100 spent on wines,
responded to the last campaign. -/
def rowC8 : RawRow :=
  ⟨1970, some 50000, "2013-06-15", "Married", "Basic",
   100, 0, 0, 0, 0, 0, 0, 0, 0, 0, 0, 1, none⟩

/-- A row born after the reference year 2014: its derived `Age` is
negative, yet no pipeline step filters on a lower age bound. -/
def rowNegAge : RawRow :=
  ⟨2015, some 50000, "2013-06-15", "Married", "Basic",
   0, 0, 0, 0, 0, 0, 0, 0, 0, 0, 0, 0, none⟩

/-- A row whose enrollment date is written day-first; it fails the
strict `%Y-%m-%d` parse (day 2013 is invalid). -/
def rowDayFirst : RawRow :=
  ⟨1970, some 50000, "15-06-2013", "Single", "Graduation",
   0, 0, 0, 0, 0, 0, 0, 0, 0, 0, 0, 0, none⟩

/-- A row whose enrollment date is not a date at all. -/
def rowBadDate : RawRow :=
  ⟨1980, some 40000, "not-a-date", "Together", "PhD",
   0, 0, 0, 0, 0, 0, 0, 0, 0, 0, 0, 0, none⟩

/-- C1 (amended): every output row of `clean` has a non-null `Income`,
`Income < 600000` and `Age < 100`; in particular rows with `Age = 100`
or `Income = 600000` are absent (strict bounds).  The original claim's
lower bound `0 <= Age` is not enforced by the code (see the
counterexample). -/
theorem c1_output_bounds (t : List RawRow) (r : Row) (h : r ∈ clean t) :
    r.Income.isSome = true ∧ incomeLt600000 r.Income = true ∧ ageLt100 r.Age = true := by
  rw [clean_eq] at h
  obtain ⟨r0, hr0, rfl⟩ := List.mem_map.mp h
  have hk := (List.mem_filter.mp hr0).2
  unfold keepRaw at hk
  simp only [Bool.and_eq_true] at hk
  exact ⟨hk.1.1, hk.2, hk.1.2⟩

/-- Witness for C1's amended theorem at the golden row. -/
theorem c1_output_bounds_witness :
    (enrichRaw rowC8).Income.isSome = true ∧
    incomeLt600000 (enrichRaw rowC8).Income = true ∧
    ageLt100 (enrichRaw rowC8).Age = true :=
  c1_output_bounds [rowC8] (enrichRaw rowC8) (by decide)

/-- C1 (counterexample): clean does not enforce `0 <= Age`.  A raw row
born in 2015 survives the pipeline with derived `Age = -1`, refuting
the claimed `0 <= Age` for output rows. -/
theorem c1_counterexample :
    (clean [rowNegAge]).map (fun r => r.Age) = [some (-1)] ∧ ¬ (0 : Int) ≤ -1 :=
  ⟨rfl, by decide⟩

/-- C2 (code evaluated at the failing input): a table whose only
`Dt_Customer` is the day-first string `15-06-2013` comes out of `clean`
with a null parsed date and a null `Tenure_Days` — the day-first
fallback of lines 72-73 runs on the already-coerced column and recovers
nothing, contrary to the documented intent of the fallback. -/
theorem c2_fallback_recovers_nothing :
    (clean [rowDayFirst]).map (fun r => (r.Dt_Customer, r.Tenure_Days)) = [(none, none)] :=
  rfl

/-- C3: in every output row of `clean`, `Total_Spend` is exactly the
row-wise sum of the six `Mnt*` columns and `Total_Accepted_Campaigns`
exactly the row-wise sum of the five `AcceptedCmp*` flags plus
`Response`. -/
theorem c3_totals (t : List RawRow) (r : Row) (h : r ∈ clean t) :
    r.Total_Spend = some (r.MntWines + r.MntFruits + r.MntMeatProducts
      + r.MntFishProducts + r.MntSweetProducts + r.MntGoldProds) ∧
    r.Total_Accepted_Campaigns = some (r.AcceptedCmp1 + r.AcceptedCmp2
      + r.AcceptedCmp3 + r.AcceptedCmp4 + r.AcceptedCmp5 + r.Response) := by
  rw [clean_eq] at h
  obtain ⟨r0, _, rfl⟩ := List.mem_map.mp h
  exact ⟨rfl, rfl⟩

/-- Witness for C3 at the golden row. -/
theorem c3_totals_witness :
    (enrichRaw rowC8).Total_Spend = some ((enrichRaw rowC8).MntWines
      + (enrichRaw rowC8).MntFruits + (enrichRaw rowC8).MntMeatProducts
      + (enrichRaw rowC8).MntFishProducts + (enrichRaw rowC8).MntSweetProducts
      + (enrichRaw rowC8).MntGoldProds) ∧
    (enrichRaw rowC8).Total_Accepted_Campaigns = some ((enrichRaw rowC8).AcceptedCmp1
      + (enrichRaw rowC8).AcceptedCmp2 + (enrichRaw rowC8).AcceptedCmp3
      + (enrichRaw rowC8).AcceptedCmp4 + (enrichRaw rowC8).AcceptedCmp5
      + (enrichRaw rowC8).Response) :=
  c3_totals [rowC8] (enrichRaw rowC8) (by decide)

/-- C4: a raw row that passes the income and outlier filters is present
in the output of `clean` no matter whether its `Dt_Customer` parses,
and its `Tenure_Days` is the day difference to the reference date of
its parsed enrollment date — hence null exactly when the parse fails
(such rows are kept, not dropped). -/
theorem c4_presence_and_tenure (t : List RawRow) (r0 : RawRow)
    (h : r0 ∈ t) (hk : keepRaw r0 = true) :
    enrichRaw r0 ∈ clean t ∧
    (enrichRaw r0).Tenure_Days = Option.map tenureDays (parseStrict r0.Dt_Customer) := by
  rw [clean_eq]
  exact ⟨List.mem_map_of_mem _ (List.mem_filter.mpr ⟨h, hk⟩), rfl⟩

/-- Witness for C4 at a row whose date fails every parse: it is still
in the output and its `Tenure_Days` is null. -/
theorem c4_presence_and_tenure_witness :
    enrichRaw rowBadDate ∈ clean [rowBadDate] ∧
    (enrichRaw rowBadDate).Tenure_Days
      = Option.map tenureDays (parseStrict rowBadDate.Dt_Customer) :=
  c4_presence_and_tenure [rowBadDate] rowBadDate (by decide) (by decide)

/-- C5: every surviving row's `Marital_Status` and `Education` in the
output of `clean` are the `replace`-dictionary images of the raw
values; the dictionaries send Married/Together to Partner,
Single/Divorced/Widow/Alone to Single, Absurd/YOLO to Other,
Basic to Undergraduate, 2n Cycle to Master, Graduation to Graduate,
Master to Master, PhD to PhD, and leave any unlisted value unchanged. -/
theorem c5_categorical_normalization (t : List RawRow) (r0 : RawRow)
    (h : r0 ∈ t) (hk : keepRaw r0 = true) (s u : String)
    (hs : s ∉ ["Married", "Together", "Single", "Divorced", "Widow", "Alone", "Absurd", "YOLO"])
    (hu : u ∉ ["Basic", "2n Cycle", "Graduation", "Master", "PhD"]) :
    enrichRaw r0 ∈ clean t ∧
    (enrichRaw r0).Marital_Status = maritalMap r0.Marital_Status ∧
    (enrichRaw r0).Education = eduMap r0.Education ∧
    maritalMap "Married" = "Partner" ∧ maritalMap "Together" = "Partner" ∧
    maritalMap "Single" = "Single" ∧ maritalMap "Divorced" = "Single" ∧
    maritalMap "Widow" = "Single" ∧ maritalMap "Alone" = "Single" ∧
    maritalMap "Absurd" = "Other" ∧ maritalMap "YOLO" = "Other" ∧
    eduMap "Basic" = "Undergraduate" ∧ eduMap "2n Cycle" = "Master" ∧
    eduMap "Graduation" = "Graduate" ∧ eduMap "Master" = "Master" ∧
    eduMap "PhD" = "PhD" ∧
    maritalMap s = s ∧ eduMap u = u := by
  simp only [List.mem_cons, List.not_mem_nil, or_false, not_or] at hs hu
  obtain ⟨m1, m2, m3, m4, m5, m6, m7, m8⟩ := hs
  obtain ⟨e1, e2, e3, e4, e5⟩ := hu
  refine ⟨?_, rfl, rfl, rfl, rfl, rfl, rfl, rfl, rfl, rfl, rfl, rfl, rfl, rfl, rfl, rfl, ?_, ?_⟩
  · rw [clean_eq]
    exact List.mem_map_of_mem _ (List.mem_filter.mpr ⟨h, hk⟩)
  · simp [maritalMap, m1, m2, m3, m4, m5, m6, m7, m8]
  · simp [eduMap, e1, e2, e3, e4, e5]

/-- Witness for C5 at the golden row, with the unmapped categories
`Widower` and `College` passing through unchanged. -/
theorem c5_categorical_normalization_witness :
    enrichRaw rowC8 ∈ clean [rowC8] ∧
    (enrichRaw rowC8).Marital_Status = maritalMap rowC8.Marital_Status ∧
    (enrichRaw rowC8).Education = eduMap rowC8.Education ∧
    maritalMap "Married" = "Partner" ∧ maritalMap "Together" = "Partner" ∧
    maritalMap "Single" = "Single" ∧ maritalMap "Divorced" = "Single" ∧
    maritalMap "Widow" = "Single" ∧ maritalMap "Alone" = "Single" ∧
    maritalMap "Absurd" = "Other" ∧ maritalMap "YOLO" = "Other" ∧
    eduMap "Basic" = "Undergraduate" ∧ eduMap "2n Cycle" = "Master" ∧
    eduMap "Graduation" = "Graduate" ∧ eduMap "Master" = "Master" ∧
    eduMap "PhD" = "PhD" ∧
    maritalMap "Widower" = "Widower" ∧ eduMap "College" = "College" :=
  c5_categorical_normalization [rowC8] rowC8 (by decide) (by decide)
    "Widower" "College" (by decide) (by decide)

/-- C6: when the input resource is absent, `load_and_clean_data` fails
with the typed not-found error and returns no table at all, and the
module top level renders only the error message — no dashboard, charts
or KPIs. -/
theorem c6_not_found_halts (src : Option (List RawRow)) (h : src = none) :
    load_and_clean_data src = Except.error DataError.notFound ∧
    renderApp src = AppView.errorMessage := by
  subst h
  exact ⟨rfl, rfl⟩

/-- Witness for C6 at the absent resource. -/
theorem c6_not_found_halts_witness :
    load_and_clean_data none = Except.error DataError.notFound ∧
    renderApp none = AppView.errorMessage :=
  c6_not_found_halts none rfl

/-- C7: `clean` is deterministic — two invocations on the same
unmodified input table yield identical output tables. -/
theorem c7_deterministic (t₁ t₂ : List RawRow) (h : t₁ = t₂) :
    clean t₁ = clean t₂ := by
  rw [h]

/-- Witness for C7 at the golden row. -/
theorem c7_deterministic_witness : clean [rowC8] = clean [rowC8] :=
  c7_deterministic [rowC8] [rowC8] rfl

/-- C8: on the spec's example row (born 1970, income 50000, enrolled
2013-06-15, Married, Basic, 100 on wines, Response 1) `clean` derives
`Age = 44`, `Total_Spend = 100`, `Total_Accepted_Campaigns = 1`,
`Marital_Status = Partner`, `Education = Undergraduate`,
`Tenure_Days = 564`. -/
theorem c8_golden_row :
    (clean [rowC8]).map (fun r =>
      (r.Age, r.Total_Spend, r.Total_Accepted_Campaigns,
       r.Marital_Status, r.Education, r.Tenure_Days))
      = [(some 44, some 100, some 1, "Partner", "Undergraduate", some 564)] :=
  rfl

/-- C9: the whole pipeline is a filter of the input rows followed by a
per-row enrichment, so the output rows are an order-preserving
subsequence of the input rows carrying the derived columns; no
individual step grows the row count (the maps preserve it, the filters
only shrink it), the untouched raw columns survive per row, and the
four derived columns are populated. -/
theorem c9_table_shape (t : List RawRow) (u : List Row) (r0 : RawRow) :
    clean t = (t.filter keepRaw).map enrichRaw ∧
    List.Sublist (t.filter keepRaw) t ∧
    (clean t).length ≤ t.length ∧
    (dropNullIncome u).length ≤ u.length ∧
    (addAge u).length = u.length ∧
    (addTotalSpend u).length = u.length ∧
    (addTotalCampaigns u).length = u.length ∧
    (parseDatesAndTenure u).length = u.length ∧
    (normalizeMarital u).length = u.length ∧
    (normalizeEducation u).length = u.length ∧
    (removeOutliers u).length ≤ u.length ∧
    (enrichRaw r0).Year_Birth = r0.Year_Birth ∧
    (enrichRaw r0).Income = r0.Income ∧
    (enrichRaw r0).MntWines = r0.MntWines ∧
    (enrichRaw r0).Response = r0.Response ∧
    (enrichRaw r0).Country = r0.Country ∧
    (enrichRaw r0).Age.isSome = true ∧
    (enrichRaw r0).Total_Spend.isSome = true ∧
    (enrichRaw r0).Total_Accepted_Campaigns.isSome = true := by
  refine ⟨clean_eq t, List.filter_sublist t, ?_, List.length_filter_le _ u,
    List.length_map u _, List.length_map u _, List.length_map u _, ?_,
    List.length_map u _, List.length_map u _, ?_,
    rfl, rfl, rfl, rfl, rfl, rfl, rfl, rfl⟩
  · rw [clean_eq, List.length_map]
    exact List.length_filter_le _ t
  · rw [parseDatesAndTenure_eq, List.length_map]
  · exact le_trans (List.length_filter_le _ _) (List.length_filter_le _ u)

/-- C10: the fallback parse runs on the already-overwritten
`Dt_Customer` column, so whenever no value of the column matches the
strict format, every output row of `clean` ends with a null parsed
date and a null `Tenure_Days` — the fallback never recovers a date. -/
theorem c10_fallback_never_recovers (t : List RawRow)
    (hall : ∀ r0 ∈ t, parseStrict r0.Dt_Customer = none)
    (r : Row) (hr : r ∈ clean t) :
    r.Dt_Customer = none ∧ r.Tenure_Days = none := by
  rw [clean_eq] at hr
  obtain ⟨r0, hr0, rfl⟩ := List.mem_map.mp hr
  have hp := hall r0 (List.mem_filter.mp hr0).1
  constructor
  · show parseStrict r0.Dt_Customer = none
    exact hp
  · show Option.map tenureDays (parseStrict r0.Dt_Customer) = none
    rw [hp]
    rfl

/-- Witness for C10 at the day-first table. -/
theorem c10_fallback_never_recovers_witness :
    (enrichRaw rowDayFirst).Dt_Customer = none ∧
    (enrichRaw rowDayFirst).Tenure_Days = none :=
  c10_fallback_never_recovers [rowDayFirst] (by decide)
    (enrichRaw rowDayFirst) (by decide)
